import Mathlib

/-!
Shallow embedding of the RAKB backend (src/main.py, src/schemas.py).

The store is MongoDB; documents are modelled as association lists of
string keys to a small BSON-like value type.  `database.py` (the
Document Store Adapter: `create_document`, `get_documents`) is imported
by `main.py` but is not part of `src/`; those two functions are
modelled from the spec (section 4.1) and are marked as such below.
Prices are modelled as rationals (the code uses Python floats only for
ordering comparisons), dates as natural numbers (ISO dates compare
exactly like their ordinal encoding).
-/

namespace RAKB

/-- BSON-like values stored in documents.  `vOid` holds the canonical
(lower case) 24-hex-digit representation of a MongoDB ObjectId. -/
inductive Value where
  | vStr (s : String)
  | vNum (q : ℚ)
  | vOid (s : String)
  | vNull
  | vDoc (fields : List (String × Value))
  deriving Repr

/-- A MongoDB document: an association list of field names to values. -/
abbrev Doc := List (String × Value)

mutual

/-- Boolean equality of values (BSON equality). -/
def Value.beq : Value → Value → Bool
  | .vStr a, .vStr b => a == b
  | .vNum a, .vNum b => a == b
  | .vOid a, .vOid b => a == b
  | .vNull, .vNull => true
  | .vDoc a, .vDoc b => beqFields a b
  | _, _ => false

/-- Boolean equality of field lists. -/
def beqFields : List (String × Value) → List (String × Value) → Bool
  | [], [] => true
  | kv :: r, kv' :: r' => kv.1 == kv'.1 && Value.beq kv.2 kv'.2 && beqFields r r'
  | _, _ => false

end

instance : BEq Value := ⟨Value.beq⟩

/-- Python dict lookup, `d.get(k)`. -/
def getField (d : Doc) (k : String) : Option Value :=
  (d.find? (fun kv => kv.1 == k)).map (·.2)

/-- Removing a key from a dict (as done by `dict.pop`). -/
def eraseField (d : Doc) (k : String) : Doc :=
  d.filter (fun kv => kv.1 != k)

/-- Python dict assignment `d[k] = v`.  Python dicts keep insertion order;
none of the verified properties inspect field order, so the updated
binding is appended after removing any previous one. -/
def setField (d : Doc) (k : String) (v : Value) : Doc :=
  eraseField d k ++ [(k, v)]

/-- Python truthiness of a value, used by `if d.get("car_id"):`. -/
def Value.truthy : Value → Bool
  | .vStr s => !(s == "")
  | .vNum q => !(q == 0)
  | .vOid _ => true
  | .vNull => false
  | .vDoc d => !d.isEmpty

/-- A hexadecimal digit, as accepted by the `ObjectId` constructor. -/
def isHexDigit (c : Char) : Bool :=
  c.isDigit || ('a' ≤ c && c ≤ 'f') || ('A' ≤ c && c ≤ 'F')

/-- The `ObjectId(s)` constructor succeeds on a string exactly when it is 24 hex digits. -/
def isValidOid (s : String) : Bool :=
  s.length == 24 && s.data.all isHexDigit

/-- Canonical form of an ObjectId string (hex digits are compared
case-insensitively by the driver). -/
def normOid (s : String) : String :=
  ⟨s.data.map Char.toLower⟩

/-! ### City regex matching (main.py lines 41-44)

`list_listings` builds the filter
`filt["city"] = {"$regex": f"^{query.city}$", "$options": "i"}`,
interpolating the user string into the pattern without escaping.
The PCRE fragment relevant to the verified claims is modelled:
a fully anchored pattern made of literal characters and the `.`
wildcard, matched case-insensitively.  Query strings using other
PCRE metacharacters are outside the model. -/

inductive RegexTok where
  | lit (c : Char)
  | anyChar
  deriving DecidableEq, Repr

/-- Compile the interpolated pattern body: each character of the query
city becomes a regex token; `.` is the any-character wildcard, every
other character a literal (nothing is escaped in the source). -/
def compileCityPattern (city : String) : List RegexTok :=
  city.data.map (fun c => if c == '.' then .anyChar else .lit c)

/-- One token against one character, under the `i` (case-insensitive) option. -/
def tokMatch (t : RegexTok) (c : Char) : Bool :=
  match t with
  | .anyChar => true
  | .lit l => l.toLower == c.toLower

/-- Anchored match of a token list against a character list
(the pattern is `^...$`, so the whole string must be consumed). -/
def matchToks : List RegexTok → List Char → Bool
  | [], [] => true
  | t :: ts, c :: cs => tokMatch t c && matchToks ts cs
  | _, _ => false

/-- The `$regex ^city$ / i` test applied to a stored string. -/
def cityRegexMatch (queryCity stored : String) : Bool :=
  matchToks (compileCityPattern queryCity) stored.data

/-- PCRE metacharacters (special when unescaped in a pattern). -/
def regexMeta : List Char :=
  ['.', '^', '$', '*', '+', '?', '(', ')', '[', ']', Char.ofNat 123, Char.ofNat 125, '|', '\\']

/-- A string free of PCRE metacharacters. -/
def noMeta (s : String) : Bool :=
  s.data.all (fun c => !(regexMeta.contains c))

/-! ### Listing search (main.py lines 29-72) -/

/-- Request body of `POST /api/listings` (class `ListingQuery`). -/
structure ListingQuery where
  city : Option String := none
  min_price : Option ℚ := none
  max_price : Option ℚ := none
  limit : Nat := 24
  deriving DecidableEq, Repr

/-- The `price_filter` dict: `$gte` / `$lte` bounds. -/
structure PriceBounds where
  gte : Option ℚ
  lte : Option ℚ
  deriving DecidableEq, Repr

/-- The `filt` dict built by `list_listings`. -/
structure Filt where
  city : Option String := none
  daily_price : Option PriceBounds := none
  deriving DecidableEq, Repr

/-- Filter construction, mirroring main.py lines 41-52: the city clause
is added only when `query.city` is truthy (not None and not empty), the
price clause only when `price_filter` is a non-empty dict. -/
def buildFilt (q : ListingQuery) : Filt :=
  let f : Filt := {}
  let f := match q.city with
    | some c => if c == "" then f else { f with city := some c }
    | none => f
  let pb : PriceBounds := ⟨q.min_price, q.max_price⟩
  if pb.gte.isSome || pb.lte.isSome then { f with daily_price := some pb } else f

/-- MongoDB semantics of the price clause `{"$gte": m, "$lte": M}`:
range operators only match numeric values. -/
def priceMatches (pb : PriceBounds) (v : Value) : Bool :=
  match v with
  | .vNum p =>
      (match pb.gte with | some m => decide (m ≤ p) | none => true)
      && (match pb.lte with | some m => decide (p ≤ m) | none => true)
  | _ => false

/-- MongoDB semantics of the `filt` dict on one document: every clause
must match; `$regex` only matches string values. -/
def docMatchesFilt (f : Filt) (d : Doc) : Bool :=
  (match f.city with
   | some c =>
      match getField d "city" with
      | some (.vStr s) => cityRegexMatch c s
      | _ => false
   | none => true)
  &&
  (match f.daily_price with
   | some pb =>
      match getField d "daily_price" with
      | some v => priceMatches pb v
      | none => false
   | none => true)

/-- Modelled from the spec: `get_documents` lives in `database.py`,
which is not under `src/`.  Spec section 4.1: `query(collection,
filter, limit) → sequence of documents`, returning at most `limit`
matching documents in insertion order. -/
def get_documents (docs : List Doc) (f : Filt) (limit : Nat) : List Doc :=
  (docs.filter (docMatchesFilt f)).take limit

/-- Python `str()` of the values that can appear in an `_id` slot. -/
def valueToStr : Value → String
  | .vStr s => s
  | .vOid s => s
  | .vNum q => toString q
  | .vNull => "None"
  | .vDoc _ => "document"

/-- Shaping step `d["id"] = str(d.pop("_id", ""))` (main.py line 60). -/
def shapeId (d : Doc) : Doc :=
  setField (eraseField d "_id") "id" (.vStr (valueToStr ((getField d "_id").getD (.vStr ""))))

/-- Does the document's `_id` field hold the ObjectId `t`? -/
def oidFieldIs (c : Doc) (t : String) : Bool :=
  match getField c "_id" with
  | some (.vOid u) => u == t
  | _ => false

/-- The lookup `db["car"].find_one({"_id": ObjectId(v)})`: it raises
(and is swallowed by the caller) unless `v` is a valid ObjectId string
or already an ObjectId. -/
def findCar (cars : List Doc) (v : Value) : Option Doc :=
  match v with
  | .vStr s =>
      if isValidOid s then cars.find? (fun c => oidFieldIs c (normOid s)) else none
  | .vOid s => cars.find? (fun c => oidFieldIs c (normOid s))
  | _ => none

/-- The car document attached to a listing, when the `car_id` field is
truthy and the lookup succeeds (main.py lines 62-69 and 86-96). -/
def attachedCar (cars : List Doc) (d : Doc) : Option Doc :=
  match getField d "car_id" with
  | some v => if v.truthy then findCar cars v else none
  | none => none

/-- Best-effort car enrichment of one shaped listing: on success the
car is shaped (`car["id"] = str(car.pop("_id",""))`) and stored under
`"car"`; on any failure the listing is returned unchanged. -/
def enrichCar (cars : List Doc) (d : Doc) : Doc :=
  match attachedCar cars d with
  | some car => setField d "car" (.vDoc (shapeId car))
  | none => d

/-- Endpoint `POST /api/listings` (main.py lines 36-72), given the listing and
car collections: build the filter, query, shape ids, enrich with cars. -/
def list_listings (listings cars : List Doc) (q : ListingQuery) : List Doc :=
  (get_documents listings (buildFilt q) q.limit).map (fun d => enrichCar cars (shapeId d))

/-! ### Generated identifiers

Modelled from the spec (section 4.1): `create_document` lives in
`database.py`, which is not under `src/`; on successful insert the
store generates a unique identifier and returns it as a string (a
MongoDB ObjectId, 24 hex digits). -/

/-- The hexadecimal digit character for `n < 16`. -/
def hexChar (n : Nat) : Char :=
  if n < 10 then Char.ofNat (48 + n) else Char.ofNat (87 + n)

/-- Fixed-width big-endian hexadecimal rendering. -/
def hexChars : Nat → Nat → List Char
  | 0, _ => []
  | w + 1, n => hexChars w (n / 16) ++ [hexChar (n % 16)]

/-- Modelled from the spec: the identifier generated by the store for
the `n`-th inserted document, a 24-hex-digit ObjectId string. -/
def oidString (n : Nat) : String :=
  ⟨hexChars 24 n⟩

/-! ### Listing detail (main.py lines 75-101) -/

/-- Outcome of `GET /api/listings/{listing_id}`. -/
inductive DetailResult where
  | ok (d : Doc)
  | err (status : Nat) (detail : String)
  deriving Repr

/-- The lookup `db["listing"].find_one({"_id": ObjectId(listing_id)})`. -/
def find_listing_by_id (listings : List Doc) (t : String) : Option Doc :=
  listings.find? (fun l => oidFieldIs l t)

/-- Endpoint `GET /api/listings/{listing_id}`: a malformed id raises inside the
outer `try` and yields 400 "Invalid id format"; a missing document
raises the 404 `HTTPException`, which is re-raised; otherwise the
listing is shaped and, best-effort, the car is attached (the inner
`try` swallows lookup failures). -/
def get_listing_detail (listings cars : List Doc) (listing_id : String) : DetailResult :=
  if isValidOid listing_id then
    match find_listing_by_id listings (normOid listing_id) with
    | none => .err 404 "Listing not found"
    | some lst =>
        match attachedCar cars (shapeId lst) with
        | some car => .ok (setField (shapeId lst) "car" (.vDoc (shapeId car)))
        | none => .ok (shapeId lst)
  else .err 400 "Invalid id format"

/-! ### Cities (main.py lines 104-110) -/

/-- Removal of duplicates by a boolean test, keeping the last of each
equivalence group: the semantics of MongoDB `distinct` needed here
(only the set of produced values matters; order is discarded by the
subsequent `sorted`). -/
def dedupBy (beq : α → α → Bool) : List α → List α
  | [] => []
  | a :: as =>
      if (dedupBy beq as).any (beq a) then dedupBy beq as else a :: dedupBy beq as

/-- Endpoint `GET /api/cities`: `db["listing"].distinct("city")`, then
`sorted([c for c in cities if isinstance(c, str)])`. -/
def get_cities (listings : List Doc) : List String :=
  let cities := dedupBy Value.beq (listings.filterMap (fun d => getField d "city"))
  (cities.filterMap (fun v => match v with | .vStr s => some s | _ => none)).mergeSort
    (fun a b => decide (a ≤ b))

/-! ### Schema validation (src/schemas.py) and creation endpoints

FastAPI runs Pydantic validation on the request body before the
handler: a payload violating a declared field constraint is rejected
with status 422 and a list of offending fields, and nothing is
persisted.  Payload structures carry the declared fields (required
fields present and type-correct by construction); each `validate`
function returns the names of the fields whose declared constraint
the payload violates, in declaration order. -/

/-- Modelled from the spec: "email well-formed" (schemas.py line 18
delegates to the external `EmailStr` validator, whose code is not in
`src/`): one `@` sign, a non-empty local part, and a domain that
contains an interior dot. -/
def emailValid (s : String) : Bool :=
  match s.splitOn "@" with
  | [lp, dom] =>
      !(lp == "") && !(dom == "") && dom.contains '.'
        && !(dom.startsWith ".") && !(dom.endsWith ".")
  | _ => false

/-- Schema `class User` (schemas.py lines 12-22). -/
structure UserP where
  name : String
  email : String
  phone : Option String := none
  role : String := "renter"
  city : Option String := none
  is_verified : Bool := false
  deriving DecidableEq, Repr

/-- Schema `class Car` (schemas.py lines 25-38). -/
structure CarP where
  owner_id : String
  make : String
  model : String
  year : Int
  transmission : String
  fuel : String
  seats : Int
  features : List String := []
  photos : List String := []
  deriving DecidableEq, Repr

/-- Schema `class Listing` (schemas.py lines 41-52). -/
structure ListingP where
  car_id : String
  owner_id : String
  city : String
  daily_price : ℚ
  description : Option String := none
  available_from : Option Nat := none
  available_to : Option Nat := none
  deriving DecidableEq, Repr

/-- Schema `class Booking` (schemas.py lines 55-65).  Dates are modelled as
naturals (ISO dates compare like their ordinal encoding). -/
structure BookingP where
  listing_id : String
  renter_id : String
  start_date : Nat
  end_date : Nat
  total_price : ℚ
  status : String := "pending"
  deriving DecidableEq, Repr

/-- Schema `class Review` (schemas.py lines 68-76). -/
structure ReviewP where
  listing_id : String
  renter_id : String
  rating : Int
  comment : Option String := none
  deriving DecidableEq, Repr

/-- User constraints: `email: EmailStr`. -/
def validateUser (p : UserP) : List String :=
  if emailValid p.email then [] else ["email"]

/-- Car constraints: `year: ge=1980, le=2100`; `seats: ge=2, le=9`. -/
def validateCar (p : CarP) : List String :=
  (if 1980 ≤ p.year ∧ p.year ≤ 2100 then [] else ["year"])
    ++ (if 2 ≤ p.seats ∧ p.seats ≤ 9 then [] else ["seats"])

/-- Listing constraints: `daily_price: ge=0`. -/
def validateListing (p : ListingP) : List String :=
  if 0 ≤ p.daily_price then [] else ["daily_price"]

/-- Booking constraints: `total_price: ge=0` (no date constraint is
declared). -/
def validateBooking (p : BookingP) : List String :=
  if 0 ≤ p.total_price then [] else ["total_price"]

/-- Review constraints: `rating: ge=1, le=5`. -/
def validateReview (p : ReviewP) : List String :=
  if 1 ≤ p.rating ∧ p.rating ≤ 5 then [] else ["rating"]

/-- Outcome of a creation endpoint, carrying the resulting state of the
entity's collection. -/
inductive CreateResult (α : Type) where
  | created (status : Nat) (id : String) (store : List α)
  | invalid (status : Nat) (fields : List String) (store : List α)
  deriving Repr

/-- A creation endpoint: Pydantic validation runs first; only a
payload with no constraint violation reaches `create_document`, which
(modelled from the spec, section 4.1) appends the document and returns
the generated identifier string with status 201. -/
def create_entity (validate : α → List String) (store : List α) (p : α) : CreateResult α :=
  match validate p with
  | [] => .created 201 (oidString store.length) (store ++ [p])
  | errs => .invalid 422 errs store

/-- Endpoint `POST /api/users` (main.py lines 114-117). -/
def create_user (store : List UserP) (p : UserP) : CreateResult UserP :=
  create_entity validateUser store p

/-- Endpoint `POST /api/cars` (main.py lines 120-123). -/
def create_car (store : List CarP) (p : CarP) : CreateResult CarP :=
  create_entity validateCar store p

/-- Endpoint `POST /api/listing` (main.py lines 126-129). -/
def create_listing (store : List ListingP) (p : ListingP) : CreateResult ListingP :=
  create_entity validateListing store p

/-- Modelled from the spec: `main.py` declares no review-creation
route, but the spec (section 8) states that Review creation follows
the same validate-then-insert contract as the other entities; the
Review constraints themselves are declared in schemas.py lines 68-76. -/
def create_review (store : List ReviewP) (p : ReviewP) : CreateResult ReviewP :=
  create_entity validateReview store p

/-! ### Booking creation and the overlap check (main.py lines 132-151) -/

/-- The `find_one` filter of the overlap check: same `listing_id`, and
`existing.start_date <= candidate.end_date` and
`existing.end_date >= candidate.start_date`. -/
def overlapsCand (existing cand : BookingP) : Bool :=
  existing.listing_id == cand.listing_id
    && decide (existing.start_date ≤ cand.end_date)
    && decide (cand.start_date ≤ existing.end_date)

/-- Outcome of `POST /api/bookings`, carrying the resulting booking
collection. -/
inductive BookingResult where
  | created (status : Nat) (id : String) (store : List BookingP)
  | conflict (status : Nat) (detail : String) (store : List BookingP)
  deriving DecidableEq, Repr

/-- Endpoint `POST /api/bookings` for a validated booking: if any existing
booking matches the overlap filter, fail with 400 "Dates not
available" and write nothing; otherwise insert (insertion modelled
from the spec, section 4.1: append and return the generated id). -/
def create_booking (store : List BookingP) (b : BookingP) : BookingResult :=
  match store.find? (fun e => overlapsCand e b) with
  | some _ => .conflict 400 "Dates not available" store
  | none => .created 201 (oidString store.length) (store ++ [b])

/-- Outcome of `POST /api/bookings` including the framework validation
step that precedes the handler. -/
inductive BookingEndpointResult where
  | created (status : Nat) (id : String) (store : List BookingP)
  | conflict (status : Nat) (detail : String) (store : List BookingP)
  | invalid (status : Nat) (fields : List String) (store : List BookingP)
  deriving DecidableEq, Repr

/-- Endpoint `POST /api/bookings` as seen by a client: Pydantic validation of
the Booking body first (422 on a violated field constraint), then the
handler `create_booking`. -/
def booking_endpoint (store : List BookingP) (p : BookingP) : BookingEndpointResult :=
  match validateBooking p with
  | [] =>
      match create_booking store p with
      | .created s i st => .created s i st
      | .conflict s d st => .conflict s d st
  | errs => .invalid 422 errs store

/-! ## Theorems -/

/-- The overlap filter, spelled out as a proposition. -/
theorem overlapsCand_eq_true_iff (e b : BookingP) :
    overlapsCand e b = true ↔
      e.listing_id = b.listing_id ∧ e.start_date ≤ b.end_date ∧ b.start_date ≤ e.end_date := by
  simp [overlapsCand, Bool.and_eq_true, and_assoc]

/-- C1: booking creation fails with 400 "Dates not available", leaving
the store unchanged, exactly when some existing booking with the same
listing_id satisfies `existing.start_date ≤ candidate.end_date` and
`existing.end_date ≥ candidate.start_date`; otherwise the booking is
inserted with status 201.  Concretely, with an existing booking for L
over [2024-06-01, 2024-06-10], a candidate over [2024-06-05,
2024-06-15] is rejected and one over [2024-06-11, 2024-06-20] is
created. -/
theorem booking_conflict_iff :
    (∀ (store : List BookingP) (b : BookingP),
        create_booking store b = .conflict 400 "Dates not available" store ↔
          ∃ e ∈ store, e.listing_id = b.listing_id ∧ e.start_date ≤ b.end_date ∧
            b.start_date ≤ e.end_date)
    ∧ (∀ (store : List BookingP) (b : BookingP),
        create_booking store b = .created 201 (oidString store.length) (store ++ [b]) ↔
          ¬ ∃ e ∈ store, e.listing_id = b.listing_id ∧ e.start_date ≤ b.end_date ∧
            b.start_date ≤ e.end_date)
    ∧ create_booking
        [{ listing_id := "L", renter_id := "r1", start_date := 20240601,
           end_date := 20240610, total_price := 100, status := "pending" }]
        { listing_id := "L", renter_id := "r2", start_date := 20240605,
          end_date := 20240615, total_price := 100, status := "pending" }
        = .conflict 400 "Dates not available"
            [{ listing_id := "L", renter_id := "r1", start_date := 20240601,
               end_date := 20240610, total_price := 100, status := "pending" }]
    ∧ create_booking
        [{ listing_id := "L", renter_id := "r1", start_date := 20240601,
           end_date := 20240610, total_price := 100, status := "pending" }]
        { listing_id := "L", renter_id := "r2", start_date := 20240611,
          end_date := 20240620, total_price := 100, status := "pending" }
        = .created 201 (oidString 1)
            [{ listing_id := "L", renter_id := "r1", start_date := 20240601,
               end_date := 20240610, total_price := 100, status := "pending" },
             { listing_id := "L", renter_id := "r2", start_date := 20240611,
               end_date := 20240620, total_price := 100, status := "pending" }] := by
  refine ⟨?_, ?_, by decide, by decide⟩
  · intro store b
    unfold create_booking
    cases h : store.find? (fun e => overlapsCand e b) with
    | some e =>
        have hp := List.find?_some h
        have hmem := List.mem_of_find?_eq_some h
        simp only [h]
        simp only [true_iff, eq_self_iff_true]
        exact ⟨e, hmem, (overlapsCand_eq_true_iff e b).mp hp⟩
    | none =>
        have hall := List.find?_eq_none.mp h
        simp only [h]
        constructor
        · intro hcontra
          exact absurd hcontra (by simp)
        · rintro ⟨e, hmem, hcond⟩
          exact absurd ((overlapsCand_eq_true_iff e b).mpr hcond) (hall e hmem)
  · intro store b
    unfold create_booking
    cases h : store.find? (fun e => overlapsCand e b) with
    | some e =>
        have hp := List.find?_some h
        have hmem := List.mem_of_find?_eq_some h
        simp only [h]
        constructor
        · intro hcontra
          exact absurd hcontra (by simp)
        · intro hnone
          exact absurd ⟨e, hmem, (overlapsCand_eq_true_iff e b).mp hp⟩ hnone
    | none =>
        have hall := List.find?_eq_none.mp h
        simp only [h, true_iff, eq_self_iff_true]
        rintro ⟨e, hmem, hcond⟩
        exact absurd ((overlapsCand_eq_true_iff e b).mpr hcond) (hall e hmem)

/-- C9: the overlap filter never inspects the existing booking's
status, so an existing booking with status "cancelled" (or any other
status) with the same listing_id and overlapping dates still triggers
the 400 "Dates not available" rejection. -/
theorem booking_overlap_ignores_status :
    (∀ (e b : BookingP) (s : String), overlapsCand { e with status := s } b = overlapsCand e b)
    ∧ (∀ (store : List BookingP) (e b : BookingP), e ∈ store →
        e.listing_id = b.listing_id → e.start_date ≤ b.end_date → b.start_date ≤ e.end_date →
        create_booking store b = .conflict 400 "Dates not available" store) := by
  constructor
  · intro e b s
    simp [overlapsCand]
  · intro store e b hmem h1 h2 h3
    unfold create_booking
    cases h : store.find? (fun x => overlapsCand x b) with
    | some x => simp only [h]
    | none =>
        have hall := List.find?_eq_none.mp h
        exact absurd ((overlapsCand_eq_true_iff e b).mpr ⟨h1, h2, h3⟩) (hall e hmem)

/-- Witness for C9: a cancelled existing booking still blocks an
overlapping candidate for the same listing. -/
theorem booking_overlap_ignores_status_witness :
    create_booking
      [{ listing_id := "L", renter_id := "r1", start_date := 20240601,
         end_date := 20240610, total_price := 100, status := "cancelled" }]
      { listing_id := "L", renter_id := "r2", start_date := 20240605,
        end_date := 20240615, total_price := 100, status := "pending" }
      = .conflict 400 "Dates not available"
          [{ listing_id := "L", renter_id := "r1", start_date := 20240601,
             end_date := 20240610, total_price := 100, status := "cancelled" }] :=
  booking_overlap_ignores_status.2
    [{ listing_id := "L", renter_id := "r1", start_date := 20240601,
       end_date := 20240610, total_price := 100, status := "cancelled" }]
    { listing_id := "L", renter_id := "r1", start_date := 20240601,
      end_date := 20240610, total_price := 100, status := "cancelled" }
    { listing_id := "L", renter_id := "r2", start_date := 20240605,
      end_date := 20240615, total_price := 100, status := "pending" }
    (by simp) (by decide) (by decide) (by decide)

/-- C8: booking validation never relates start_date and end_date:
changing the dates of a payload never changes its validation outcome,
and an otherwise-valid payload with equal or inverted dates is
accepted and persisted as-is (here: an inverted range into a store
with no overlapping booking). -/
theorem booking_dates_unconstrained :
    (∀ (b : BookingP) (s e : Nat),
        validateBooking { b with start_date := s, end_date := e } = validateBooking b)
    ∧ (∀ (store : List BookingP) (b : BookingP), 0 ≤ b.total_price →
        (∀ e ∈ store, ¬ overlapsCand e b = true) →
        booking_endpoint store b = .created 201 (oidString store.length) (store ++ [b]))
    ∧ booking_endpoint []
        { listing_id := "L", renter_id := "r", start_date := 20240615,
          end_date := 20240601, total_price := 100, status := "pending" }
        = .created 201 (oidString 0)
            [{ listing_id := "L", renter_id := "r", start_date := 20240615,
               end_date := 20240601, total_price := 100, status := "pending" }] := by
  refine ⟨?_, ?_, by decide⟩
  · intro b s e
    simp [validateBooking]
  · intro store b hprice hnone
    unfold booking_endpoint validateBooking
    rw [if_pos hprice]
    unfold create_booking
    rw [List.find?_eq_none.mpr hnone]

/-- Witness for C8: a single-day (start_date = end_date) booking into
an empty store is accepted and persisted. -/
theorem booking_dates_unconstrained_witness :
    booking_endpoint []
      { listing_id := "L", renter_id := "r", start_date := 20240605,
        end_date := 20240605, total_price := 100, status := "pending" }
      = .created 201 (oidString 0)
          [{ listing_id := "L", renter_id := "r", start_date := 20240605,
             end_date := 20240605, total_price := 100, status := "pending" }] :=
  booking_dates_unconstrained.2.1 []
    { listing_id := "L", renter_id := "r", start_date := 20240605,
      end_date := 20240605, total_price := 100, status := "pending" }
    (by decide) (by simp)

/-- On a metacharacter-free character list the compiled pattern is all
literals, and the anchored case-insensitive match is exactly equality
of the lower-cased character lists. -/
theorem matchToks_lit_iff (cs : List Char) (h : ∀ c ∈ cs, ¬ c = '.') :
    ∀ ds : List Char,
      matchToks (cs.map (fun c => if c == '.' then RegexTok.anyChar else .lit c)) ds = true ↔
        cs.map Char.toLower = ds.map Char.toLower := by
  induction cs with
  | nil =>
      intro ds
      cases ds <;> simp [matchToks]
  | cons c cs ih =>
      intro ds
      have hc : (c == '.') = false := by
        simpa using h c (List.mem_cons_self c cs)
      cases ds with
      | nil => simp [matchToks, hc]
      | cons d ds =>
          have ihd := ih (fun x hx => h x (List.mem_cons_of_mem c hx)) ds
          have hc' : ¬ c = '.' := by simpa using hc
          have hmap : ((c :: cs).map (fun x => if x == '.' then RegexTok.anyChar else RegexTok.lit x))
              = RegexTok.lit c :: (cs.map (fun x => if x == '.' then RegexTok.anyChar else RegexTok.lit x)) := by
            simp [hc']
          rw [hmap]
          simp only [matchToks, tokMatch, Bool.and_eq_true, ihd, List.map_cons, List.cons.injEq]
          simp

/-- A metacharacter-free string contains no `.`. -/
theorem noMeta_no_dot (c : String) (h : noMeta c = true) : ∀ ch ∈ c.data, ¬ ch = '.' := by
  intro ch hch heq
  have := (List.all_eq_true.mp h) ch hch
  subst heq
  simp [regexMeta] at this

/-- C2 (amended): for a query city containing no regex metacharacter,
the city filter matches a stored city string exactly when the two
strings are equal up to letter case; "Casablanca" matches "casablanca"
and "CASABLANCA" but not "Casablanca-Anfa"; the built filter carries
the raw query string, and a document matches a filter with a city
clause only if its city string passes that clause. -/
theorem city_match_ci_exact :
    (∀ c s : String, noMeta c = true →
        (cityRegexMatch c s = true ↔ c.data.map Char.toLower = s.data.map Char.toLower))
    ∧ cityRegexMatch "Casablanca" "casablanca" = true
    ∧ cityRegexMatch "Casablanca" "CASABLANCA" = true
    ∧ cityRegexMatch "Casablanca" "Casablanca-Anfa" = false
    ∧ (∀ (q : ListingQuery) (c : String), q.city = some c → ¬ c = "" →
        (buildFilt q).city = some c)
    ∧ (∀ (f : Filt) (d : Doc) (c s : String), f.city = some c →
        getField d "city" = some (.vStr s) →
        docMatchesFilt f d = true → cityRegexMatch c s = true) := by
  refine ⟨?_, by decide, by decide, by decide, ?_, ?_⟩
  · intro c s h
    exact matchToks_lit_iff c.data (noMeta_no_dot c h) s.data
  · intro q c hq hne
    have hcb : (c == "") = false := by simpa using hne
    simp only [buildFilt, hq, hcb]
    cases hg : q.min_price <;> cases hl : q.max_price <;> simp [hg, hl]
  · intro f d c s hf hd hm
    simp only [docMatchesFilt, hf, hd] at hm
    rw [Bool.and_eq_true] at hm
    exact hm.1

/-- Witness for C2: the amended equivalence evaluated at the spec's
example, a metacharacter-free query "Casablanca" against stored city
"casablanca". -/
theorem city_match_ci_exact_witness :
    cityRegexMatch "Casablanca" "casablanca" = true :=
  (city_match_ci_exact.1 "Casablanca" "casablanca" (by decide)).mpr (by decide)

/-- Counterexample for C2 as stated: the query city "." (a regex
metacharacter) makes the filter match the stored city "x", although
"x" is not case-insensitively equal to ".". -/
theorem city_match_ci_exact_cex :
    docMatchesFilt (buildFilt { city := some "." }) [("city", Value.vStr "x")] = true
    ∧ ¬ (("." : String).data.map Char.toLower = ("x" : String).data.map Char.toLower) := by
  exact ⟨by decide, by decide⟩

/-- C10: the query city is interpolated into the `^...$` pattern
without escaping, so a query containing the metacharacter `.` matches
stored cities that are not case-insensitively equal to it: the raw
string "f.o" is carried into the filter and matches the stored city
"fYo". -/
theorem city_regex_unescaped :
    (buildFilt { city := some "f.o" }).city = some "f.o"
    ∧ docMatchesFilt (buildFilt { city := some "f.o" }) [("city", Value.vStr "fYo")] = true
    ∧ ¬ (("f.o" : String).data.map Char.toLower = ("fYo" : String).data.map Char.toLower) := by
  exact ⟨rfl, by decide, by decide⟩

/-- Field lookup on a cons cell. -/
theorem getField_cons (kv : String × Value) (d : Doc) (k : String) :
    getField (kv :: d) k = if (kv.1 == k) = true then some kv.2 else getField d k := by
  unfold getField
  rw [List.find?_cons]
  by_cases hp : (kv.1 == k) = true
  · simp [hp]
  · simp [hp]

/-- Field removal on a cons cell. -/
theorem eraseField_cons (kv : String × Value) (d : Doc) (k : String) :
    eraseField (kv :: d) k =
      if (kv.1 != k) = true then kv :: eraseField d k else eraseField d k := by
  unfold eraseField
  rw [List.filter_cons]

/-- Looking a key up after removing a different key is unchanged. -/
theorem getField_eraseField (d : Doc) (k k' : String) (h : ¬ k' = k) :
    getField (eraseField d k) k' = getField d k' := by
  induction d with
  | nil => rfl
  | cons kv d ih =>
      rw [eraseField_cons]
      by_cases hk : kv.1 = k
      · have hne : (kv.1 != k) = false := by simp [hk]
        have h2 : (kv.1 == k') = false := by
          rw [hk]
          simp
          exact fun he => h he.symm
        rw [hne, if_neg (by simp), getField_cons, h2, if_neg (by simp)]
        exact ih
      · have hne : (kv.1 != k) = true := by simp [hk]
        rw [hne, if_pos rfl, getField_cons, getField_cons]
        by_cases h3 : (kv.1 == k') = true
        · rw [if_pos h3, if_pos h3]
        · rw [if_neg h3, if_neg h3]
          exact ih

/-- Removing a key removes it. -/
theorem getField_eraseField_self (d : Doc) (k : String) :
    getField (eraseField d k) k = none := by
  induction d with
  | nil => rfl
  | cons kv d ih =>
      rw [eraseField_cons]
      by_cases hk : kv.1 = k
      · rw [if_neg (by simp [hk])]
        exact ih
      · rw [if_pos (by simp [hk]), getField_cons, if_neg (by simp [hk])]
        exact ih

/-- Setting a key makes it hold the written value. -/
theorem getField_setField_self (d : Doc) (k : String) (v : Value) :
    getField (setField d k v) k = some v := by
  have h1 : List.find? (fun kv => kv.1 == k) (eraseField d k) = none := by
    have h2 := getField_eraseField_self d k
    unfold getField at h2
    cases hf : List.find? (fun kv => kv.1 == k) (eraseField d k) with
    | none => rfl
    | some kv => rw [hf] at h2; exact absurd h2 (by simp)
  unfold getField setField
  rw [List.find?_append, h1]
  simp

/-- Setting a key leaves every other key unchanged (relative to the
removal that precedes the write). -/
theorem getField_setField_ne (d : Doc) (k k' : String) (v : Value) (h : ¬ k' = k) :
    getField (setField d k v) k' = getField (eraseField d k) k' := by
  have hkk : (k == k') = false := by
    simp
    exact fun he => h he.symm
  unfold getField setField
  rw [List.find?_append]
  cases hf : (eraseField d k).find? (fun kv => kv.1 == k') with
  | some kv => simp
  | none => simp [List.find?, hkk]

/-- Shaping only rewrites the identifier fields. -/
theorem getField_shapeId_ne (d : Doc) (k : String) (h1 : ¬ k = "id") (h2 : ¬ k = "_id") :
    getField (shapeId d) k = getField d k := by
  unfold shapeId
  rw [getField_setField_ne _ _ _ _ h1, getField_eraseField _ _ _ h1,
    getField_eraseField _ _ _ h2]

/-- A shaped document carries a string `id`. -/
theorem getField_shapeId_id (d : Doc) :
    getField (shapeId d) "id" = some (.vStr (valueToStr ((getField d "_id").getD (.vStr "")))) :=
  getField_setField_self _ _ _

/-- A shaped document carries no `_id`. -/
theorem getField_shapeId_no_raw (d : Doc) :
    getField (shapeId d) "_id" = none := by
  unfold shapeId
  rw [getField_setField_ne _ _ _ _ (by decide), getField_eraseField _ _ _ (by decide),
    getField_eraseField_self]

/-- Car enrichment only writes the `car` field. -/
theorem getField_enrichCar_ne (cars : List Doc) (d : Doc) (k : String) (h : ¬ k = "car") :
    getField (enrichCar cars d) k = getField d k := by
  unfold enrichCar
  cases hA : attachedCar cars d with
  | some car =>
      rw [getField_setField_ne _ _ _ _ h, getField_eraseField _ _ _ h]
  | none => rfl

/-- Every search result comes from a stored document that matched the
built filter, shaped and enriched. -/
theorem mem_list_listings (listings cars : List Doc) (q : ListingQuery) (d : Doc)
    (h : d ∈ list_listings listings cars q) :
    ∃ d0 ∈ listings, docMatchesFilt (buildFilt q) d0 = true ∧ d = enrichCar cars (shapeId d0) := by
  unfold list_listings get_documents at h
  rcases List.mem_map.mp h with ⟨d0, hd0, hEq⟩
  rcases List.mem_filter.mp (List.mem_of_mem_take hd0) with ⟨hmem, hflt⟩
  exact ⟨d0, hmem, hflt, hEq.symm⟩

/-- The price clause of the built filter. -/
theorem buildFilt_daily_price (q : ListingQuery) :
    (buildFilt q).daily_price =
      (if q.min_price.isSome || q.max_price.isSome
       then some ⟨q.min_price, q.max_price⟩ else none) := by
  unfold buildFilt
  cases hc : q.city with
  | none => cases h : (q.min_price.isSome || q.max_price.isSome) <;> simp [h]
  | some c =>
      by_cases he : (c == "") = true <;>
        cases h : (q.min_price.isSome || q.max_price.isSome) <;> simp [he, h]

/-- A document passing a filter with a price clause has a numeric
daily_price satisfying that clause. -/
theorem docMatches_price (f : Filt) (d : Doc) (pb : PriceBounds) (hf : f.daily_price = some pb)
    (hm : docMatchesFilt f d = true) :
    ∃ p, getField d "daily_price" = some (.vNum p) ∧ priceMatches pb (.vNum p) = true := by
  simp only [docMatchesFilt, hf] at hm
  rw [Bool.and_eq_true] at hm
  rcases hm with ⟨-, h2⟩
  cases hg : getField d "daily_price" with
  | none => rw [hg] at h2; exact absurd h2 (by simp)
  | some v =>
      rw [hg] at h2
      cases v with
      | vNum p => exact ⟨p, rfl, h2⟩
      | vStr s => exact absurd h2 (by simp [priceMatches])
      | vOid s => exact absurd h2 (by simp [priceMatches])
      | vNull => exact absurd h2 (by simp [priceMatches])
      | vDoc f => exact absurd h2 (by simp [priceMatches])

/-- The `$gte` / `$lte` bounds are both honoured, inclusively. -/
theorem priceMatches_bounds (pb : PriceBounds) (p : ℚ)
    (h : priceMatches pb (.vNum p) = true) :
    (∀ m, pb.gte = some m → m ≤ p) ∧ (∀ m, pb.lte = some m → p ≤ m) := by
  unfold priceMatches at h
  rw [Bool.and_eq_true] at h
  obtain ⟨h1, h2⟩ := h
  constructor
  · intro m hm; rw [hm] at h1; exact of_decide_eq_true h1
  · intro m hm; rw [hm] at h2; exact of_decide_eq_true h2

/-- C3: a listing is returned only if its daily_price satisfies the
provided bounds, both inclusive; a price bound left unset adds no
filter clause, and with no price clause the filter never consults
daily_price.  Concretely, with bounds [100, 200] the listings priced
exactly 100 and exactly 200 are returned and one priced 250 is not. -/
theorem price_filter_inclusive :
    (∀ (q : ListingQuery) (listings cars : List Doc) (d : Doc),
        d ∈ list_listings listings cars q →
          (∀ m, q.min_price = some m →
            ∃ p, getField d "daily_price" = some (.vNum p) ∧ m ≤ p)
          ∧ (∀ m, q.max_price = some m →
            ∃ p, getField d "daily_price" = some (.vNum p) ∧ p ≤ m))
    ∧ (∀ q : ListingQuery, q.min_price = none → q.max_price = none →
        (buildFilt q).daily_price = none)
    ∧ (∀ (f : Filt) (d d' : Doc), f.daily_price = none →
        getField d "city" = getField d' "city" → docMatchesFilt f d = docMatchesFilt f d')
    ∧ list_listings
        [[("daily_price", Value.vNum 100)], [("daily_price", Value.vNum 200)],
         [("daily_price", Value.vNum 250)]] []
        { min_price := some 100, max_price := some 200 }
        = [[("daily_price", Value.vNum 100), ("id", Value.vStr "")],
           [("daily_price", Value.vNum 200), ("id", Value.vStr "")]] := by
  refine ⟨?_, ?_, ?_, rfl⟩
  · intro q listings cars d hmem
    rcases mem_list_listings listings cars q d hmem with ⟨d0, -, hflt, hEq⟩
    have hfield : getField d "daily_price" = getField d0 "daily_price" := by
      rw [hEq, getField_enrichCar_ne _ _ _ (by decide), getField_shapeId_ne _ _ (by decide) (by decide)]
    constructor
    · intro m hm
      have hpb : (buildFilt q).daily_price = some ⟨q.min_price, q.max_price⟩ := by
        rw [buildFilt_daily_price, if_pos]
        simp [hm]
      rcases docMatches_price _ _ _ hpb hflt with ⟨p, hp, hpm⟩
      exact ⟨p, by rw [hfield, hp], (priceMatches_bounds _ _ hpm).1 m hm⟩
    · intro m hm
      have hpb : (buildFilt q).daily_price = some ⟨q.min_price, q.max_price⟩ := by
        rw [buildFilt_daily_price, if_pos]
        simp [hm]
      rcases docMatches_price _ _ _ hpb hflt with ⟨p, hp, hpm⟩
      exact ⟨p, by rw [hfield, hp], (priceMatches_bounds _ _ hpm).2 m hm⟩
  · intro q h1 h2
    rw [buildFilt_daily_price, h1, h2]
    simp
  · intro f d d' hf hc
    simp only [docMatchesFilt, hf, hc]

/-- Witness for C3: evaluating the bound extraction on the concrete
query with min_price = max_price = 100 and the listing priced exactly
100 (the boundary is included). -/
theorem price_filter_inclusive_witness :
    ∃ p, getField [("daily_price", Value.vNum 100), ("id", Value.vStr "")] "daily_price"
          = some (.vNum p) ∧ (100 : ℚ) ≤ p :=
  (price_filter_inclusive.1
      { min_price := some 100, max_price := some 100 }
      [[("daily_price", Value.vNum 100)]] []
      [("daily_price", Value.vNum 100), ("id", Value.vStr "")]
      (by
        have h : list_listings [[("daily_price", Value.vNum 100)]] []
            { min_price := some 100, max_price := some 100 }
            = [[("daily_price", Value.vNum 100), ("id", Value.vStr "")]] := rfl
        rw [h]
        exact List.mem_singleton.mpr rfl)).1
    100 rfl

/-- C4: the search returns at most `limit` items (with default limit
24 when the request omits it), and every returned item carries a
string-valued `id` field and no raw `_id` field. -/
theorem search_limit_and_shape :
    (∀ (listings cars : List Doc) (q : ListingQuery),
        (list_listings listings cars q).length ≤ q.limit)
    ∧ ({} : ListingQuery).limit = 24
    ∧ (∀ (listings cars : List Doc) (q : ListingQuery) (d : Doc),
        d ∈ list_listings listings cars q →
          (∃ s, getField d "id" = some (.vStr s)) ∧ getField d "_id" = none) := by
  refine ⟨?_, rfl, ?_⟩
  · intro listings cars q
    unfold list_listings get_documents
    rw [List.length_map]
    exact List.length_take_le _ _
  · intro listings cars q d hmem
    rcases mem_list_listings listings cars q d hmem with ⟨d0, -, -, hEq⟩
    constructor
    · refine ⟨valueToStr ((getField d0 "_id").getD (.vStr "")), ?_⟩
      rw [hEq, getField_enrichCar_ne _ _ _ (by decide), getField_shapeId_id]
    · rw [hEq, getField_enrichCar_ne _ _ _ (by decide), getField_shapeId_no_raw]

/-- Witness for C4: the single stored listing is returned shaped, with
a string `id` and no `_id`. -/
theorem search_limit_and_shape_witness :
    (∃ s, getField [("city", Value.vStr "Rabat"), ("id", Value.vStr "")] "id"
        = some (.vStr s))
    ∧ getField [("city", Value.vStr "Rabat"), ("id", Value.vStr "")] "_id" = none :=
  search_limit_and_shape.2.2 [[("city", Value.vStr "Rabat")]] [] {}
    [("city", Value.vStr "Rabat"), ("id", Value.vStr "")]
    (by
      have h : list_listings [[("city", Value.vStr "Rabat")]] [] {}
          = [[("city", Value.vStr "Rabat"), ("id", Value.vStr "")]] := rfl
      rw [h]
      exact List.mem_singleton.mpr rfl)

/-- Boolean value equality against a string value, left version. -/
theorem Value.beq_vStr_left (s : String) (v : Value) :
    Value.beq (.vStr s) v = true ↔ v = .vStr s := by
  cases v with
  | vStr b =>
      show (s == b) = true ↔ Value.vStr b = Value.vStr s
      simp only [beq_iff_eq, Value.vStr.injEq]
      exact eq_comm
  | vNum q => show false = true ↔ _; simp
  | vOid t => show false = true ↔ _; simp
  | vNull => show false = true ↔ _; simp
  | vDoc f => show false = true ↔ _; simp

/-- The elements of `dedupBy` are pairwise non-equivalent. -/
theorem dedupBy_pairwise (beq : α → α → Bool) (l : List α) :
    (dedupBy beq l).Pairwise (fun a b => beq a b = false) := by
  induction l with
  | nil => exact List.Pairwise.nil
  | cons a as ih =>
      unfold dedupBy
      by_cases h : (dedupBy beq as).any (beq a) = true
      · rw [if_pos h]
        exact ih
      · rw [if_neg h]
        refine List.Pairwise.cons ?_ ih
        intro b hb
        cases hba : beq a b with
        | false => rfl
        | true => exact absurd (List.any_eq_true.mpr ⟨b, hb, hba⟩) h

/-- Function `dedupBy` keeps only original elements. -/
theorem mem_of_mem_dedupBy {beq : α → α → Bool} {l : List α} {a : α}
    (h : a ∈ dedupBy beq l) : a ∈ l := by
  induction l with
  | nil => exact absurd h (List.not_mem_nil a)
  | cons x xs ih =>
      unfold dedupBy at h
      by_cases hc : (dedupBy beq xs).any (beq x) = true
      · rw [if_pos hc] at h
        exact List.mem_cons_of_mem _ (ih h)
      · rw [if_neg hc] at h
        rcases List.mem_cons.mp h with rfl | h2
        · exact List.mem_cons_self _ _
        · exact List.mem_cons_of_mem _ (ih h2)

/-- An element equivalent only to itself survives `dedupBy`. -/
theorem mem_dedupBy_of_mem {beq : α → α → Bool} {l : List α} {a : α}
    (hlaw : ∀ b, beq a b = true → b = a) (h : a ∈ l) : a ∈ dedupBy beq l := by
  induction l with
  | nil => exact absurd h (List.not_mem_nil a)
  | cons x xs ih =>
      unfold dedupBy
      rcases List.mem_cons.mp h with rfl | hx
      · by_cases hc : (dedupBy beq xs).any (beq a) = true
        · rw [if_pos hc]
          rcases List.any_eq_true.mp hc with ⟨b, hb, hba⟩
          exact (hlaw b hba) ▸ hb
        · rw [if_neg hc]
          exact List.mem_cons_self _ _
      · by_cases hc : (dedupBy beq xs).any (beq x) = true
        · rw [if_pos hc]
          exact ih hx
        · rw [if_neg hc]
          exact List.mem_cons_of_mem _ (ih hx)

/-- The string extraction used by `get_cities` succeeds exactly on
string values. -/
theorem toStr_eq_some (v : Value) (s : String) :
    (match v with | Value.vStr t => some t | _ => none) = some s ↔ v = Value.vStr s := by
  cases v <;> simp

/-- C5 (amended): the cities endpoint returns exactly the distinct
string city values of the listing collection (the empty string
included when stored), with no duplicates, sorted. -/
theorem cities_nodup_sorted_mem :
    ∀ listings : List Doc,
      (get_cities listings).Nodup
      ∧ List.Sorted (fun a b : String => a ≤ b) (get_cities listings)
      ∧ (∀ s, s ∈ get_cities listings ↔
          Value.vStr s ∈ listings.filterMap (fun d => getField d "city")) := by
  intro listings
  set vals := listings.filterMap (fun d => getField d "city") with hvals
  set ded := dedupBy Value.beq vals with hded
  set strs := ded.filterMap (fun v => match v with | Value.vStr s => some s | _ => none)
    with hstrs
  have hget : get_cities listings = strs.mergeSort (fun a b => decide (a ≤ b)) := rfl
  have hnd : strs.Nodup := by
    refine List.Pairwise.filterMap _ ?_ (dedupBy_pairwise Value.beq vals)
    intro a a' hR b hb b' hb'
    have ha : a = Value.vStr b := (toStr_eq_some a b).mp hb
    have ha' : a' = Value.vStr b' := (toStr_eq_some a' b').mp hb'
    intro hbb
    rw [ha, ha', hbb] at hR
    have ht : Value.beq (Value.vStr b') (Value.vStr b') = true :=
      (Value.beq_vStr_left b' (Value.vStr b')).mpr rfl
    rw [ht] at hR
    exact absurd hR (by decide)
  refine ⟨?_, ?_, ?_⟩
  · rw [hget]
    exact (List.mergeSort_perm strs _).nodup_iff.mpr hnd
  · rw [hget]
    have hsort :=
      @List.sorted_mergeSort String (fun a b : String => decide (a ≤ b))
        (fun a b c hab hbc =>
          decide_eq_true (le_trans (of_decide_eq_true hab) (of_decide_eq_true hbc)))
        (fun a b => by rcases le_total a b with h | h <;> simp [h])
        strs
    exact hsort.imp (fun h => of_decide_eq_true h)
  · intro s
    rw [hget, List.mem_mergeSort]
    constructor
    · intro hs
      rcases List.mem_filterMap.mp hs with ⟨v, hv, hveq⟩
      have := (toStr_eq_some v s).mp hveq
      rw [this] at hv
      exact mem_of_mem_dedupBy hv
    · intro hs
      have h2 : Value.vStr s ∈ ded :=
        mem_dedupBy_of_mem (fun b hb => (Value.beq_vStr_left s b).mp hb) hs
      exact List.mem_filterMap.mpr ⟨Value.vStr s, h2, rfl⟩

/-- Counterexample for C5 as stated: a listing stored with the empty
string as its city makes the endpoint return the empty string, which
is not a non-empty value. -/
theorem cities_nodup_sorted_mem_cex :
    "" ∈ get_cities [[("city", Value.vStr "")]] := by
  have h : get_cities [[("city", Value.vStr "")]] = [""] := by
    show ([""] : List String).mergeSort (fun a b => decide (a ≤ b)) = [""]
    exact List.mergeSort_singleton ""
  rw [h]
  exact List.mem_singleton.mpr rfl

/-- C6: with the store configured, a malformed listing id yields 400
"Invalid id format"; a well-formed id with no matching document yields
404 "Listing not found"; a matching document is returned with its
identifier renamed to a string `id` (no raw `_id`), with the shaped
car embedded under `car` when the car_id lookup succeeds and with its
`car` field untouched (hence absent for a stored listing without one)
when it fails. -/
theorem detail_contract :
    (∀ (listings cars : List Doc) (s : String), isValidOid s = false →
        get_listing_detail listings cars s = .err 400 "Invalid id format")
    ∧ (∀ (listings cars : List Doc) (s : String), isValidOid s = true →
        find_listing_by_id listings (normOid s) = none →
        get_listing_detail listings cars s = .err 404 "Listing not found")
    ∧ (∀ (listings cars : List Doc) (s : String) (lst : Doc), isValidOid s = true →
        find_listing_by_id listings (normOid s) = some lst →
        ∃ d, get_listing_detail listings cars s = .ok d
          ∧ (∃ i, getField d "id" = some (.vStr i))
          ∧ getField d "_id" = none
          ∧ (∀ car, attachedCar cars (shapeId lst) = some car →
              getField d "car" = some (.vDoc (shapeId car)))
          ∧ (attachedCar cars (shapeId lst) = none →
              getField d "car" = getField lst "car")) := by
  refine ⟨?_, ?_, ?_⟩
  · intro listings cars s h
    unfold get_listing_detail
    rw [if_neg (by simp [h])]
  · intro listings cars s h hfind
    unfold get_listing_detail
    rw [if_pos h, hfind]
  · intro listings cars s lst h hfind
    have hred : get_listing_detail listings cars s
        = match attachedCar cars (shapeId lst) with
          | some car => DetailResult.ok (setField (shapeId lst) "car" (.vDoc (shapeId car)))
          | none => DetailResult.ok (shapeId lst) := by
      unfold get_listing_detail
      rw [if_pos h, hfind]
    rw [hred]
    cases hA : attachedCar cars (shapeId lst) with
    | some car =>
        refine ⟨setField (shapeId lst) "car" (.vDoc (shapeId car)), rfl, ?_, ?_, ?_, ?_⟩
        · refine ⟨valueToStr ((getField lst "_id").getD (.vStr "")), ?_⟩
          rw [getField_setField_ne _ _ _ _ (by decide),
            getField_eraseField _ _ _ (by decide), getField_shapeId_id]
        · rw [getField_setField_ne _ _ _ _ (by decide),
            getField_eraseField _ _ _ (by decide), getField_shapeId_no_raw]
        · intro car' hcar'
          cases Option.some.inj hcar'
          exact getField_setField_self _ _ _
        · intro hnone
          exact absurd hnone (by simp)
    | none =>
        refine ⟨shapeId lst, rfl, ⟨_, getField_shapeId_id lst⟩, getField_shapeId_no_raw lst,
          ?_, ?_⟩
        · intro car hcar
          exact absurd hcar (by simp)
        · intro _
          exact getField_shapeId_ne lst "car" (by decide) (by decide)

/-- Witness for C6: a malformed id "zz" fails with 400; the missing
well-formed id fails with 404; an existing id is returned shaped. -/
theorem detail_contract_witness :
    get_listing_detail [] [] "zz" = DetailResult.err 400 "Invalid id format"
    ∧ get_listing_detail [] [] "aaaaaaaaaaaaaaaaaaaaaaaa" = DetailResult.err 404 "Listing not found"
    ∧ ∃ d, get_listing_detail
          [[("_id", Value.vOid "aaaaaaaaaaaaaaaaaaaaaaaa"),
            ("car_id", Value.vStr "bbbbbbbbbbbbbbbbbbbbbbbb")]]
          [[("_id", Value.vOid "bbbbbbbbbbbbbbbbbbbbbbbb"), ("make", Value.vStr "Dacia")]]
          "aaaaaaaaaaaaaaaaaaaaaaaa" = DetailResult.ok d
        ∧ (∃ i, getField d "id" = some (Value.vStr i)) ∧ getField d "_id" = none := by
  refine ⟨detail_contract.1 [] [] "zz" (by decide),
          detail_contract.2.1 [] [] "aaaaaaaaaaaaaaaaaaaaaaaa" (by decide) rfl, ?_⟩
  obtain ⟨d, h1, h2, h3, -, -⟩ :=
    detail_contract.2.2
      [[("_id", Value.vOid "aaaaaaaaaaaaaaaaaaaaaaaa"),
        ("car_id", Value.vStr "bbbbbbbbbbbbbbbbbbbbbbbb")]]
      [[("_id", Value.vOid "bbbbbbbbbbbbbbbbbbbbbbbb"), ("make", Value.vStr "Dacia")]]
      "aaaaaaaaaaaaaaaaaaaaaaaa"
      [("_id", Value.vOid "aaaaaaaaaaaaaaaaaaaaaaaa"),
       ("car_id", Value.vStr "bbbbbbbbbbbbbbbbbbbbbbbb")]
      (by decide) rfl
  exact ⟨d, h1, h2, h3⟩

/-- The fixed-width hex rendering has its full width. -/
theorem hexChars_length : ∀ (w n : Nat), (hexChars w n).length = w
  | 0, _ => rfl
  | w + 1, n => by
      unfold hexChars
      rw [List.length_append, hexChars_length w (n / 16)]
      simp

/-- Generated identifiers are never the empty string. -/
theorem oidString_ne_empty (n : Nat) : ¬ oidString n = "" := by
  intro h
  have hd : (oidString n).data = ("" : String).data := by rw [h]
  have hnil : hexChars 24 n = [] := hd
  have hlen : (hexChars 24 n).length = 24 := hexChars_length 24 n
  rw [hnil] at hlen
  simp at hlen

/-- A payload with no constraint violation is inserted. -/
theorem create_entity_created (validate : α → List String) (store : List α) (p : α)
    (h : validate p = []) :
    create_entity validate store p = .created 201 (oidString store.length) (store ++ [p]) := by
  unfold create_entity
  rw [h]

/-- A payload with a violated constraint is rejected with 422, naming
the violated fields, and nothing is persisted. -/
theorem create_entity_invalid (validate : α → List String) (store : List α) (p : α)
    (h : ¬ validate p = []) :
    create_entity validate store p = .invalid 422 (validate p) store := by
  unfold create_entity
  cases hv : validate p with
  | nil => exact absurd hv h
  | cons e es => rfl

/-- A booking with no overlapping existing booking is inserted. -/
theorem create_booking_no_overlap (store : List BookingP) (b : BookingP)
    (hno : ∀ e ∈ store, ¬ overlapsCand e b = true) :
    create_booking store b = .created 201 (oidString store.length) (store ++ [b]) := by
  unfold create_booking
  rw [List.find?_eq_none.mpr hno]

/-- C7 (amended): every creation endpoint validates the declared field
constraints before persisting; a payload satisfying them is inserted
and answered with 201 and the non-empty generated identifier string
(for Booking, provided no existing booking for the same listing
overlaps the candidate's dates); a payload violating a declared
constraint is rejected with 422, the offending fields are exactly the
violated ones, and the store is unchanged. -/
theorem creation_contract :
    (∀ n, ¬ oidString n = "")
    ∧ (∀ (store : List UserP) (p : UserP),
        (validateUser p = [] →
          create_user store p = .created 201 (oidString store.length) (store ++ [p]))
        ∧ (¬ validateUser p = [] →
          create_user store p = .invalid 422 (validateUser p) store))
    ∧ (∀ (store : List CarP) (p : CarP),
        (validateCar p = [] →
          create_car store p = .created 201 (oidString store.length) (store ++ [p]))
        ∧ (¬ validateCar p = [] →
          create_car store p = .invalid 422 (validateCar p) store))
    ∧ (∀ (store : List ListingP) (p : ListingP),
        (validateListing p = [] →
          create_listing store p = .created 201 (oidString store.length) (store ++ [p]))
        ∧ (¬ validateListing p = [] →
          create_listing store p = .invalid 422 (validateListing p) store))
    ∧ (∀ (store : List ReviewP) (p : ReviewP),
        (validateReview p = [] →
          create_review store p = .created 201 (oidString store.length) (store ++ [p]))
        ∧ (¬ validateReview p = [] →
          create_review store p = .invalid 422 (validateReview p) store))
    ∧ (∀ (store : List BookingP) (p : BookingP),
        (validateBooking p = [] → (∀ e ∈ store, ¬ overlapsCand e p = true) →
          booking_endpoint store p = .created 201 (oidString store.length) (store ++ [p]))
        ∧ (¬ validateBooking p = [] →
          booking_endpoint store p = .invalid 422 (validateBooking p) store))
    ∧ (∀ p : UserP, (validateUser p = [] ↔ emailValid p.email = true)
        ∧ ("email" ∈ validateUser p ↔ emailValid p.email = false))
    ∧ (∀ p : CarP,
        (validateCar p = [] ↔ (1980 ≤ p.year ∧ p.year ≤ 2100) ∧ (2 ≤ p.seats ∧ p.seats ≤ 9))
        ∧ ("year" ∈ validateCar p ↔ ¬ (1980 ≤ p.year ∧ p.year ≤ 2100))
        ∧ ("seats" ∈ validateCar p ↔ ¬ (2 ≤ p.seats ∧ p.seats ≤ 9)))
    ∧ (∀ p : ListingP, (validateListing p = [] ↔ 0 ≤ p.daily_price)
        ∧ ("daily_price" ∈ validateListing p ↔ ¬ 0 ≤ p.daily_price))
    ∧ (∀ p : BookingP, (validateBooking p = [] ↔ 0 ≤ p.total_price)
        ∧ ("total_price" ∈ validateBooking p ↔ ¬ 0 ≤ p.total_price))
    ∧ (∀ p : ReviewP, (validateReview p = [] ↔ (1 ≤ p.rating ∧ p.rating ≤ 5))
        ∧ ("rating" ∈ validateReview p ↔ ¬ (1 ≤ p.rating ∧ p.rating ≤ 5))) := by
  refine ⟨oidString_ne_empty, ?_, ?_, ?_, ?_, ?_, ?_, ?_, ?_, ?_, ?_⟩
  · exact fun store p =>
      ⟨fun h => create_entity_created validateUser store p h,
       fun h => create_entity_invalid validateUser store p h⟩
  · exact fun store p =>
      ⟨fun h => create_entity_created validateCar store p h,
       fun h => create_entity_invalid validateCar store p h⟩
  · exact fun store p =>
      ⟨fun h => create_entity_created validateListing store p h,
       fun h => create_entity_invalid validateListing store p h⟩
  · exact fun store p =>
      ⟨fun h => create_entity_created validateReview store p h,
       fun h => create_entity_invalid validateReview store p h⟩
  · intro store p
    constructor
    · intro h hno
      unfold booking_endpoint
      rw [h, create_booking_no_overlap store p hno]
    · intro h
      unfold booking_endpoint
      cases hv : validateBooking p with
      | nil => exact absurd hv h
      | cons e es => rfl
  · intro p
    by_cases he : emailValid p.email = true
    · constructor <;> simp [validateUser, he]
    · have he' : emailValid p.email = false := by
        cases hb : emailValid p.email
        · rfl
        · exact absurd hb he
      constructor <;> simp [validateUser, he']
  · intro p
    by_cases hy : (1980 ≤ p.year ∧ p.year ≤ 2100) <;>
      by_cases hs : (2 ≤ p.seats ∧ p.seats ≤ 9) <;>
        refine ⟨?_, ?_, ?_⟩ <;> simp [validateCar, hy, hs]
  · intro p
    by_cases hd : (0 : ℚ) ≤ p.daily_price <;>
      constructor <;> simp [validateListing, hd]
  · intro p
    by_cases ht : (0 : ℚ) ≤ p.total_price <;>
      constructor <;> simp [validateBooking, ht]
  · intro p
    by_cases hr : (1 ≤ p.rating ∧ p.rating ≤ 5) <;>
      constructor <;> simp [validateReview, hr]

/-- Witness for C7: a valid car payload is created with the non-empty
generated id; one with year 1900 is rejected with 422 naming "year". -/
theorem creation_contract_witness :
    create_car []
      { owner_id := "o", make := "Dacia", model := "Logan", year := 2020,
        transmission := "manual", fuel := "diesel", seats := 5 }
      = .created 201 (oidString 0)
          [{ owner_id := "o", make := "Dacia", model := "Logan", year := 2020,
             transmission := "manual", fuel := "diesel", seats := 5 }]
    ∧ create_car []
        { owner_id := "o", make := "Dacia", model := "Logan", year := 1900,
          transmission := "manual", fuel := "diesel", seats := 5 }
        = .invalid 422 (validateCar
            { owner_id := "o", make := "Dacia", model := "Logan", year := 1900,
              transmission := "manual", fuel := "diesel", seats := 5 }) []
    ∧ ¬ oidString 0 = "" :=
  ⟨(creation_contract.2.2.1 [] _).1 (by decide),
   (creation_contract.2.2.1 [] _).2 (by decide),
   creation_contract.1 0⟩

/-- Counterexample for C7 as stated: a booking payload satisfying all
declared field constraints is still rejected with 400 when its dates
overlap an existing booking for the same listing, so a valid payload
does not always yield 201. -/
theorem creation_contract_cex :
    validateBooking
      { listing_id := "L", renter_id := "r2", start_date := 20240605,
        end_date := 20240615, total_price := 100, status := "pending" } = []
    ∧ booking_endpoint
        [{ listing_id := "L", renter_id := "r1", start_date := 20240601,
           end_date := 20240610, total_price := 100, status := "pending" }]
        { listing_id := "L", renter_id := "r2", start_date := 20240605,
          end_date := 20240615, total_price := 100, status := "pending" }
        = .conflict 400 "Dates not available"
            [{ listing_id := "L", renter_id := "r1", start_date := 20240601,
               end_date := 20240610, total_price := 100, status := "pending" }] := by
  exact ⟨rfl, by decide⟩

end RAKB
